import Mathlib

/-!
Shallow embedding of `src/ecs/_index_code/examples/hello_world.rs`, a Bevy
ECS usage example.  The example defines three data types (`Name`, `World`,
the marker `Denizen`), a `HashMap<Name, World>` directory resource, a
`HelloTimer` resource wrapping a repeating 2-second timer, and three
systems: `place_denizens`, `spawn_denizens` and `say_hello`.

The directory is embedded as an association list with the usual
replace-on-collision insert (the map semantics of `HashMap::insert`).
Entities are records holding optional `Name` and `World` components and a
flag for the presence of the `Denizen` marker.  The host framework's
`Timer` type is not part of the repository, so it is modelled from the
spec (see `Timer` below); time deltas are rationals.
-/

namespace HelloWorldEx

/-- Rust `struct Name(String)` with `#[derive(Hash, PartialEq, Eq, Clone, Debug)]`:
equality is by the wrapped text. -/
structure Name where
  text : String
deriving DecidableEq, Repr

/-- The derived `Hash` of a one-field struct feeds exactly the field to the
hasher, so the hash of a `Name` is whatever the string hasher returns on the
wrapped text.  The string hasher itself is a parameter. -/
def nameHash (hasher : String → Nat) (n : Name) : Nat :=
  hasher n.text

/-- The custom `impl fmt::Display for Name` writes the wrapped text. -/
def Name.displayFmt (n : Name) : String :=
  n.text

/-- Rust `enum World { Venus, Earth, Mars }`. -/
inductive World where
  | venus
  | earth
  | mars
deriving DecidableEq, Repr

/-- What `{:?}` (the derived `Debug`) prints for each `World` variant. -/
def World.debugFmt : World → String
  | .venus => "Venus"
  | .earth => "Earth"
  | .mars => "Mars"

/-- The `HashMap<Name, World>` directory resource, as an association list. -/
abbrev Dir := List (Name × World)

/-- The map semantics of `HashMap::insert`: replace the value when the key is present, otherwise
add a new entry. -/
def insertD : Dir → Name → World → Dir
  | [], k, v => [(k, v)]
  | (k0, v0) :: rest, k, v =>
    if k = k0 then (k, v) :: rest else (k0, v0) :: insertD rest k v

/-- A `HashMap::get`-style lookup in the directory. -/
def lookupD : Dir → Name → Option World
  | [], _ => none
  | (k0, v0) :: rest, k => if k = k0 then some v0 else lookupD rest k

/-- System `fn place_denizens(mut directory: ResMut<HashMap<Name, World>>)`:
inserts Alice -> Venus, Bevy -> Earth, Cart -> Mars. -/
def placeDenizens (directory : Dir) : Dir :=
  insertD (insertD (insertD directory ⟨"Alice"⟩ .venus) ⟨"Bevy"⟩ .earth)
    ⟨"Cart"⟩ .mars

/-- An entity as this example builds it: optional `Name` and `World`
components, and whether the `Denizen` marker component is attached. -/
structure Entity where
  name : Option Name
  world : Option World
  denizen : Bool
deriving DecidableEq, Repr

/-- System `fn spawn_denizens(commands, directory: Res<HashMap<Name, World>>)`:
for each directory entry spawn an entity with the name and world components,
adding the `Denizen` marker unless the name is `Name("Bevy")`.  The
directory is a `Res` (read-only) handle, so it is returned unchanged; the
spawned entities are queued after the existing ones. -/
def spawnDenizens (directory : Dir) (entities : List Entity) :
    Dir × List Entity :=
  (directory,
    entities ++ directory.map (fun nw =>
      if nw.1 = (⟨"Bevy"⟩ : Name) then ⟨some nw.1, some nw.2, false⟩
      else ⟨some nw.1, some nw.2, true⟩))

/-- Modelled from the spec: the host framework's `Timer` is not in the
repository.  Per the spec it "wraps a repeating interval timer (2 seconds);
its only state is elapsed/completed status, mutated every frame by the host
scheduler's per-frame delta", and after it completes "it resets and can
complete again".  Time is modelled by rationals. -/
structure Timer where
  duration : Rat
  elapsed : Rat
  repeating : Bool
  justFinished : Bool
deriving DecidableEq, Repr

/-- Modelled from the spec: `Timer::from_seconds(duration, repeating)`
starts with nothing elapsed and not finished. -/
def Timer.fromSeconds (duration : Rat) (repeating : Bool) : Timer :=
  ⟨duration, 0, repeating, false⟩

/-- Modelled from the spec: `Timer::tick(delta)` accumulates the delta;
`just_finished` reports a completion that happened on this tick; a
repeating timer that completes resets (keeping the overshoot) so that it
can complete again, while a non-repeating timer stays finished. -/
def Timer.tick (t : Timer) (delta : Rat) : Timer :=
  let prevFinished : Bool := decide (t.duration ≤ t.elapsed)
  let e := t.elapsed + delta
  let finished : Bool := decide (t.duration ≤ e)
  let jf := !prevFinished && finished
  if t.repeating && finished then
    { t with elapsed := e - t.duration, justFinished := jf }
  else
    { t with elapsed := e, justFinished := jf }

/-- Rust `struct HelloTimer(Timer)`. -/
structure HelloTimer where
  timer : Timer
deriving DecidableEq, Repr

/-- The slice of the `Time` resource this example uses:
`time.delta_seconds()`. -/
structure Time where
  deltaSeconds : Rat
deriving DecidableEq, Repr

/-- The string `println!("Hello {:?}, my name is {}!", *world, *name)`
produces for one entity. -/
def greet (name : Name) (world : World) : String :=
  "Hello " ++ world.debugFmt ++ ", my name is " ++ name.displayFmt ++ "!"

/-- The query `Query<(&Name, &World), With<Denizen>>`: the `(Name, World)` component
pairs of the entities that carry all of `Name`, `World` and the `Denizen`
marker. -/
def queryDenizens (entities : List Entity) : List (Name × World) :=
  entities.filterMap (fun e =>
    match e.name, e.world with
    | some n, some w => if e.denizen then some (n, w) else none
    | _, _ => none)

/-- System `fn say_hello(query, timer: ResMut<HelloTimer>, time: Res<Time>)`:
tick the timer by the frame delta; when it just finished, print one
greeting per queried entity, otherwise print nothing.  Returns the updated
`HelloTimer` resource and the printed lines. -/
def sayHello (entities : List Entity) (timer : HelloTimer) (time : Time) :
    HelloTimer × List String :=
  let t := timer.timer.tick time.deltaSeconds
  if t.justFinished then
    (⟨t⟩, (queryDenizens entities).map (fun nw => greet nw.1 nw.2))
  else
    (⟨t⟩, [])

/-- In `main` the directory resource is registered as `HashMap::new()`. -/
def initialDirectory : Dir := []

/-- In `main` the timer resource is registered as `HelloTimer(Timer::from_seconds(2.0, true))`. -/
def initialHelloTimer : HelloTimer :=
  ⟨Timer.fromSeconds 2 true⟩

/-- The directory after the first startup system ran on the empty map. -/
def directoryAfterPlace : Dir :=
  placeDenizens initialDirectory

/-- The entity store after both startup systems ran, starting from no
entities (startup systems run once, in insertion order). -/
def entitiesAfterSetup : List Entity :=
  (spawnDenizens directoryAfterPlace []).2

end HelloWorldEx

namespace HelloWorldEx

/-- The inner timer of `HelloTimer` after being ticked `n` times with a
2-second frame delta, starting from the timer registered in `main`. -/
def tickTwos : Nat → Timer
  | 0 => initialHelloTimer.timer
  | n + 1 => (tickTwos n).tick 2

/-- Inserting a key that is already present with the same value leaves the
directory unchanged. -/
theorem insertD_of_lookupD (d : Dir) (k : Name) (v : World)
    (h : lookupD d k = some v) : insertD d k v = d := by
  induction d with
  | nil => simp [lookupD] at h
  | cons p rest ih =>
    obtain ⟨k0, v0⟩ := p
    by_cases hk : k = k0
    · subst hk
      simp [lookupD] at h
      simp [insertD, h]
    · simp [lookupD, hk] at h
      simp [insertD, hk, ih h]

/-- Looking up the key just inserted yields the inserted value. -/
theorem lookupD_insertD_self (d : Dir) (k : Name) (v : World) :
    lookupD (insertD d k v) k = some v := by
  induction d with
  | nil => simp [insertD, lookupD]
  | cons p rest ih =>
    obtain ⟨k0, v0⟩ := p
    by_cases hk : k = k0 <;> simp [insertD, lookupD, hk, ih]

/-- Inserting under a different key does not change a lookup. -/
theorem lookupD_insertD_ne (d : Dir) (k k2 : Name) (v : World)
    (h : k ≠ k2) : lookupD (insertD d k2 v) k = lookupD d k := by
  induction d with
  | nil => simp [insertD, lookupD, h]
  | cons p rest ih =>
    obtain ⟨k0, v0⟩ := p
    by_cases hk : k2 = k0
    · subst hk
      simp [insertD, lookupD, h]
    · by_cases hkk : k = k0 <;> simp [insertD, lookupD, hk, hkk, ih]

/-- An insert grows the directory by at most one entry. -/
theorem insertD_length (d : Dir) (k : Name) (v : World) :
    (insertD d k v).length ≤ d.length + 1 := by
  induction d with
  | nil => simp [insertD]
  | cons p rest ih =>
    obtain ⟨k0, v0⟩ := p
    by_cases hk : k = k0
    · simp [insertD, hk]
    · simp [insertD, hk]
      omega

/-- The query returns exactly one pair per entity carrying `Name`, `World`
and the `Denizen` marker. -/
theorem queryDenizens_length (es : List Entity) :
    (queryDenizens es).length =
      es.countP (fun e => e.denizen && e.name.isSome && e.world.isSome) := by
  induction es with
  | nil => rfl
  | cons e rest ih =>
    obtain ⟨name, world, dz⟩ := e
    cases name <;> cases world <;> cases dz <;>
      simp [queryDenizens, List.countP_cons] at ih ⊢ <;>
      omega

/-- Ticking the registered timer by 2-second deltas keeps its duration at 2,
its elapsed time at 0 (it resets on every completion) and its repeating
flag set. -/
theorem tickTwos_state (n : Nat) :
    (tickTwos n).duration = 2 ∧ (tickTwos n).elapsed = 0 ∧
      (tickTwos n).repeating = true := by
  induction n with
  | zero => exact ⟨rfl, rfl, rfl⟩
  | succ n ih =>
    obtain ⟨hd, he, hr⟩ := ih
    simp [tickTwos, Timer.tick, hd, he, hr]

end HelloWorldEx

namespace HelloWorldEx

/-- C1: after both startup systems have run (place_denizens then
spawn_denizens) starting from the empty directory and no entities, exactly
three entities exist, exactly two of them carry the `Denizen` marker, and
the remaining one does not. -/
theorem startup_spawns_three_entities_two_denizens :
    entitiesAfterSetup.length = 3 ∧
    (entitiesAfterSetup.filter (fun e => e.denizen)).length = 2 ∧
    (entitiesAfterSetup.filter (fun e => !e.denizen)).length = 1 := by
  decide

/-- C2: running place_denizens on the empty directory yields exactly three
entries, mapping Alice to Venus, Bevy to Earth and Cart to Mars. -/
theorem place_denizens_directory_contents :
    (placeDenizens initialDirectory).length = 3 ∧
    lookupD (placeDenizens initialDirectory) ⟨"Alice"⟩ = some .venus ∧
    lookupD (placeDenizens initialDirectory) ⟨"Bevy"⟩ = some .earth ∧
    lookupD (placeDenizens initialDirectory) ⟨"Cart"⟩ = some .mars := by
  decide

/-- C3: on any frame where ticking the timer by the frame delta does not
report a fresh completion, say_hello prints nothing, whatever the entities
and timer state. -/
theorem say_hello_silent_unless_timer_just_finished
    (entities : List Entity) (timer : HelloTimer) (time : Time)
    (h : (timer.timer.tick time.deltaSeconds).justFinished = false) :
    (sayHello entities timer time).2 = [] := by
  simp [sayHello, h]

/-- Witness for C3: a fresh 2-second timer ticked by a 1-second delta has
not just finished, and say_hello prints nothing on that frame. -/
theorem say_hello_silent_witness :
    (initialHelloTimer.timer.tick (Time.mk 1).deltaSeconds).justFinished
        = false ∧
    (sayHello [] initialHelloTimer ⟨1⟩).2 = [] :=
  ⟨by simp [initialHelloTimer, Timer.tick, Timer.fromSeconds],
   say_hello_silent_unless_timer_just_finished [] initialHelloTimer ⟨1⟩
     (by simp [initialHelloTimer, Timer.tick, Timer.fromSeconds])⟩

/-- C4: on any frame where ticking the timer reports a fresh completion,
say_hello prints exactly one greeting per entity that carries all of
`Name`, `World` and the `Denizen` marker; entities lacking the marker (or a
queried component) contribute no greeting. -/
theorem say_hello_greets_each_denizen_when_timer_finishes
    (entities : List Entity) (timer : HelloTimer) (time : Time)
    (h : (timer.timer.tick time.deltaSeconds).justFinished = true) :
    (sayHello entities timer time).2.length =
      entities.countP
        (fun e => e.denizen && e.name.isSome && e.world.isSome) := by
  simp [sayHello, h, queryDenizens_length]

/-- Witness for C4: a fresh 2-second timer ticked by a 2-second delta has
just finished, and on the entities built at startup say_hello prints one
line per marked entity. -/
theorem say_hello_greets_witness :
    (initialHelloTimer.timer.tick (Time.mk 2).deltaSeconds).justFinished
        = true ∧
    (sayHello entitiesAfterSetup initialHelloTimer ⟨2⟩).2.length =
      entitiesAfterSetup.countP
        (fun e => e.denizen && e.name.isSome && e.world.isSome) :=
  ⟨by simp [initialHelloTimer, Timer.tick, Timer.fromSeconds],
   say_hello_greets_each_denizen_when_timer_finishes entitiesAfterSetup
     initialHelloTimer ⟨2⟩
     (by simp [initialHelloTimer, Timer.tick, Timer.fromSeconds])⟩

/-- C5: two names are equal exactly when the wrapped strings are equal, and
the hash of a name is determined solely by the wrapped string (for any
string hasher). -/
theorem name_eq_and_hash_by_wrapped_text (a b : String) :
    ((Name.mk a = Name.mk b) ↔ a = b) ∧
    ∀ hasher : String → Nat, a = b →
      nameHash hasher (Name.mk a) = nameHash hasher (Name.mk b) := by
  refine ⟨?_, fun hasher h => by rw [h]⟩
  simp [Name.mk.injEq]

/-- Witness for C5: instantiated at the string Bevy and the length hasher. -/
theorem name_eq_and_hash_witness :
    (((⟨"Bevy"⟩ : Name) = ⟨"Bevy"⟩) ↔ ("Bevy" : String) = ("Bevy" : String)) ∧
    nameHash String.length ⟨"Bevy"⟩ = nameHash String.length ⟨"Bevy"⟩ :=
  ⟨(name_eq_and_hash_by_wrapped_text ("Bevy") ("Bevy")).1,
   (name_eq_and_hash_by_wrapped_text ("Bevy") ("Bevy")).2 String.length rfl⟩

/-- C6: the registered HelloTimer wraps a repeating timer of duration 2;
ticked with 2 seconds of accumulated delta it completes, resets, and
completes again on every later 2-second accumulation, indefinitely. -/
theorem hello_timer_repeats_every_two_seconds :
    initialHelloTimer.timer.repeating = true ∧
    initialHelloTimer.timer.duration = 2 ∧
    ∀ n : Nat, (tickTwos (n + 1)).justFinished = true := by
  refine ⟨rfl, rfl, fun n => ?_⟩
  obtain ⟨hd, he, hr⟩ := tickTwos_state n
  simp [tickTwos, Timer.tick, hd, he, hr]

/-- C7: spawn_denizens holds the directory through a read-only `Res` handle
and returns it unchanged for every directory and entity store. -/
theorem spawn_denizens_preserves_directory (d : Dir) (es : List Entity) :
    (spawnDenizens d es).1 = d := rfl

/-- C8: all three systems are total on every input state: place_denizens
always yields a directory (of at most three more entries), spawn_denizens
always yields exactly one new entity per directory entry, and say_hello
always yields an output list (of at most one line per entity); none has a
failure mode. -/
theorem systems_total_on_all_inputs (d : Dir) (es : List Entity)
    (timer : HelloTimer) (time : Time) :
    (placeDenizens d).length ≤ d.length + 3 ∧
    ((spawnDenizens d es).2).length = es.length + d.length ∧
    ((sayHello es timer time).2).length ≤ es.length := by
  refine ⟨?_, ?_, ?_⟩
  · have h1 := insertD_length d ⟨"Alice"⟩ .venus
    have h2 := insertD_length (insertD d ⟨"Alice"⟩ .venus) ⟨"Bevy"⟩ .earth
    have h3 := insertD_length
      (insertD (insertD d ⟨"Alice"⟩ .venus) ⟨"Bevy"⟩ .earth) ⟨"Cart"⟩ .mars
    show (insertD (insertD (insertD d ⟨"Alice"⟩ .venus) ⟨"Bevy"⟩ .earth)
      ⟨"Cart"⟩ .mars).length ≤ d.length + 3
    omega
  · simp [spawnDenizens]
  · by_cases hjf : (timer.timer.tick time.deltaSeconds).justFinished = true
    · simp [sayHello, hjf, queryDenizens_length]
      exact List.countP_le_length _
    · simp [sayHello, hjf]

/-- C9: among the entities spawn_denizens creates (from any directory), an
entity lacks the `Denizen` marker exactly when its name is Bevy; and in the
concrete startup run the one unmarked entity is Bevy on Earth. -/
theorem only_bevy_lacks_denizen_marker :
    (∀ d : Dir, ∀ e ∈ (spawnDenizens d []).2,
      (e.denizen = false ↔ e.name = some ⟨"Bevy"⟩)) ∧
    entitiesAfterSetup.filter (fun e => !e.denizen) =
      [⟨some ⟨"Bevy"⟩, some .earth, false⟩] := by
  constructor
  · intro d e he
    simp only [spawnDenizens, List.nil_append, List.mem_map] at he
    obtain ⟨nw, hmem, rfl⟩ := he
    by_cases h : nw.1 = (⟨"Bevy"⟩ : Name) <;> simp [h]
  · decide

/-- Witness for C9: the Bevy entity of the startup run is among the spawned
entities and lacks the marker exactly because its name is Bevy. -/
theorem only_bevy_witness :
    ((⟨some ⟨"Bevy"⟩, some .earth, false⟩ : Entity).denizen = false ↔
      (⟨some ⟨"Bevy"⟩, some .earth, false⟩ : Entity).name = some ⟨"Bevy"⟩) :=
  only_bevy_lacks_denizen_marker.1 directoryAfterPlace
    ⟨some ⟨"Bevy"⟩, some .earth, false⟩ (by decide)

/-- C10: place_denizens is idempotent on every starting directory, because
each insert overwrites any previous entry for its key. -/
theorem place_denizens_idempotent (d : Dir) :
    placeDenizens (placeDenizens d) = placeDenizens d := by
  have hc : lookupD (placeDenizens d) ⟨"Cart"⟩ = some .mars :=
    lookupD_insertD_self _ _ _
  have hb : lookupD (placeDenizens d) ⟨"Bevy"⟩ = some .earth := by
    show lookupD (insertD (insertD (insertD d ⟨"Alice"⟩ .venus) ⟨"Bevy"⟩
      .earth) ⟨"Cart"⟩ .mars) ⟨"Bevy"⟩ = some .earth
    rw [lookupD_insertD_ne _ _ _ _ (by decide)]
    exact lookupD_insertD_self _ _ _
  have ha : lookupD (placeDenizens d) ⟨"Alice"⟩ = some .venus := by
    show lookupD (insertD (insertD (insertD d ⟨"Alice"⟩ .venus) ⟨"Bevy"⟩
      .earth) ⟨"Cart"⟩ .mars) ⟨"Alice"⟩ = some .venus
    rw [lookupD_insertD_ne _ _ _ _ (by decide),
      lookupD_insertD_ne _ _ _ _ (by decide)]
    exact lookupD_insertD_self _ _ _
  show insertD (insertD (insertD (placeDenizens d) ⟨"Alice"⟩ .venus)
    ⟨"Bevy"⟩ .earth) ⟨"Cart"⟩ .mars = placeDenizens d
  rw [insertD_of_lookupD _ _ _ ha, insertD_of_lookupD _ _ _ hb,
    insertD_of_lookupD _ _ _ hc]

end HelloWorldEx
